import Mathlib

/-!
Shallow embedding of `src/pipeline.py` (abstract `Pipeline` class of the
sdc-advanced-lane-lines repository) and proofs about its calibration,
distortion-correction and debug-composition behaviour.

Images are modelled by their numpy shape (a list of dimensions) plus a pixel
function; OpenCV routines (`cv2.imread`, `cv2.cvtColor`, the corner detector,
the calibration solver, `cv2.undistort`, ...) are external collaborators and
are modelled as an oracle bundle `CV` that the embedded functions are
parametrised over.  Python exceptions are modelled by the inductive `PyErr`;
functions that can raise return `Except PyErr _` together with the state they
leave behind.  The pickle file (`results/calibration_data.p`) is modelled by
`CalFileState`: absent, unreadable (both raise IOError when opened / read),
holding an unpicklable blob (raises pickle.UnpicklingError), or holding a
pickled dict whose two expected keys may each be present or missing (a missing
key raises KeyError at the dict access).
-/

/-- An n-dimensional numpy array viewed as an image: `dims` is its shape
(`[h, w]` for grayscale, `[h, w, c]` for colour) and `px` its contents. -/
structure Img where
  dims : List Nat
  px : Nat → Nat → Nat → Int

/-- Camera matrix as produced by `cv2.calibrateCamera` (contents opaque). -/
abbrev Mtx := List (List Int)

/-- Distortion coefficients as produced by `cv2.calibrateCamera`. -/
abbrev DistC := List Int

/-- Detected chessboard corners as returned by `cv2.findChessboardCorners`. -/
abbrev Corners := List (Int × Int)

/-- One object-point grid, the `objp` array of the source. -/
abbrev ObjP := List (Int × Int × Int)

/-- The Python exceptions that the embedded code can raise or catch.
`ioError` covers IOError = OSError (file absent or unreadable); `keyError`
covers dict access of a missing key; `unpicklingError` covers
pickle.UnpicklingError on a corrupt blob; `assertionError` covers the `assert`
statements; `cvError` covers cv2.error raised by the OpenCV routines. -/
inductive PyErr where
  | ioError
  | keyError
  | unpicklingError
  | assertionError
  | cvError
deriving DecidableEq, Repr

/-- The pickled dict of the calibration file.  The source writes both keys
(`dist_mtx`, `dist_dist`); a dict found on disk may be missing either. -/
structure CalDict where
  dist_mtx : Option Mtx
  dist_dist : Option DistC
deriving DecidableEq, Repr

/-- A blob on disk: either not unpicklable at all, or a pickled `CalDict`. -/
inductive Blob where
  | corrupt
  | data (d : CalDict)
deriving DecidableEq, Repr

/-- The state of the calibration file `results/calibration_data.p`. -/
inductive CalFileState where
  | absent
  | unreadable
  | holds (b : Blob)
deriving DecidableEq, Repr

/-- The part of the filesystem the pipeline touches: the calibration file and
the names of the debug artifacts written so far. -/
structure FS where
  calFile : CalFileState
  debugWrites : List String
deriving DecidableEq, Repr

/-- The mutable calibration state of a `Pipeline` instance: the fields
`self.dist_mtx` and `self.dist_dist`. -/
structure PipelineState where
  dist_mtx : Option Mtx
  dist_dist : Option DistC
deriving DecidableEq, Repr

/-- `Pipeline.__init__` sets both calibration fields to None. -/
def init_state : PipelineState := ⟨none, none⟩

/-- Directory constants fixed by `Pipeline.__init__`. -/
def cal_dir : String := "camera_cal"

/-- Results directory fixed by `Pipeline.__init__`. -/
def results_dir : String := "results"

/-- Invocations of the two interesting external routines, recorded so that
theorems can state that a code path does or does not invoke them. -/
inductive Event where
  | detect
  | solve
deriving DecidableEq, Repr

/-- The bundle of external OpenCV collaborators (section 6 of the spec):
image codec, colour conversions, corner detector, calibration solver,
undistortion routine.  Their numerics are outside this repository. -/
structure CV where
  imread : String → Option Img
  cvtColor_BGR2GRAY : Img → Img
  findChessboardCorners : Img → Nat → Nat → Option Corners
  calibrateCamera : List ObjP → List Corners → List Nat → Except PyErr (Mtx × DistC)
  undistort : Img → Mtx → DistC → Img
  drawChessboardCorners : Img → Corners → Img
  cvtColor_GRAY2RGB : Img → Img

/-- The object-point grid `objp` of lines 75-76: `np.zeros((y*x,3))` with the
first two columns filled from `np.mgrid[0:x, 0:y].T.reshape(-1,2)`, i.e. the
points `(i, j, 0)` for `j < y`, `i < x`, ordered with `j` outermost. -/
def objp (x y : Nat) : ObjP :=
  (List.range y).flatMap (fun j => (List.range x).map (fun i => ((i : Int), (j : Int), (0 : Int))))

/-- `pickle.load(open(self.cal_file, "rb"))` of line 59.  Opening an absent or
unreadable file raises IOError; unpickling a corrupt blob raises
pickle.UnpicklingError; otherwise the pickled dict is returned. -/
def loadCal (fs : FS) : Except PyErr CalDict :=
  match fs.calFile with
  | .absent => .error .ioError
  | .unreadable => .error .ioError
  | .holds .corrupt => .error .unpicklingError
  | .holds (.data d) => .ok d

/-- Lines 109-110: build the dict with keys dist_mtx and dist_dist and pickle
it to the calibration file, overwriting prior contents. -/
def saveCal (fs : FS) (m : Mtx) (d : DistC) : FS :=
  { fs with calFile := .holds (.data ⟨some m, some d⟩) }

/-- The load half of the store seen through the cache-read site (lines 59-61):
unpickle the dict, then access both expected keys; a missing key raises
KeyError. -/
def loadParams (fs : FS) : Except PyErr (Mtx × DistC) :=
  match loadCal fs with
  | .error e => .error e
  | .ok cal_data =>
    match cal_data.dist_mtx with
    | none => .error .keyError
    | some m =>
      match cal_data.dist_dist with
      | none => .error .keyError
      | some d => .ok (m, d)

/-- `correct_distortion` (lines 112-119).  The three asserts raise
AssertionError when a calibration field is None or the image is None; the
final assert compares the shapes of input and output.  The image argument is
an `Option Img` because call sites pass the result of `cv2.imread`, which is
None for an undecodable file. -/
def correct_distortion (cv : CV) (st : PipelineState) (img : Option Img) : Except PyErr Img :=
  match st.dist_mtx with
  | none => .error .assertionError
  | some m =>
    match st.dist_dist with
    | none => .error .assertionError
    | some d =>
      match img with
      | none => .error .assertionError
      | some i =>
        let undistort_img := cv.undistort i m d
        if i.dims = undistort_img.dims then .ok undistort_img
        else .error .assertionError

/-- The body of the nested helper `undistort_images` (lines 45-53) when debug
is true: for each image index, read the file, correct distortion (which can
raise), and write `undistortN.jpg`.  The filesystem reached so far is carried
into the error case because Python exceptions do not roll writes back. -/
def undistortLoop (cv : CV) (st : PipelineState) :
    Nat → List String → FS → Except (PyErr × FS) FS
  | _, [], fs => .ok fs
  | idx, fname :: rest, fs =>
    match correct_distortion cv st (cv.imread fname) with
    | .error e => .error (e, fs)
    | .ok _ =>
      undistortLoop cv st (idx + 1) rest
        { fs with debugWrites := fs.debugWrites ++ ["undistort" ++ toString idx ++ ".jpg"] }

/-- `undistort_images(debug, images)` (lines 45-53): a no-op unless debug. -/
def undistort_images (cv : CV) (st : PipelineState) (debug : Bool) (images : List String)
    (fs : FS) : Except (PyErr × FS) FS :=
  if debug then undistortLoop cv st 0 images fs else .ok fs

/-- Accumulator of the calibration loop of lines 79-98: the `objpoints` and
`imgpoints` lists, the `img_shape` taken from the first image, the filesystem
(for `corners_foundN.jpg` debug writes) and the log of external invocations. -/
structure LoopState where
  objpoints : List ObjP
  imgpoints : List Corners
  img_shape : Option (List Nat)
  fs : FS
  events : List Event

/-- One iteration of the loop of lines 79-98 at index `idx` on file `fname`.
`cv2.imread` of an undecodable file returns None and the subsequent
`cv2.cvtColor(None, ...)` raises cv2.error, aborting the loop.  Otherwise the
image is converted to gray, `img_shape` is taken from the first image, and
corner detection is attempted; on success the accumulators are extended (plus
a `corners_foundN.jpg` debug write when debug), on failure the image is merely
reported and skipped. -/
def calStep (cv : CV) (x y : Nat) (debug : Bool) (idx : Nat) (fname : String)
    (ls : LoopState) : Except (PyErr × LoopState) LoopState :=
  match cv.imread fname with
  | none => .error (.cvError, ls)
  | some img =>
    let gray := cv.cvtColor_BGR2GRAY img
    let shape := match ls.img_shape with
      | none => some gray.dims
      | some s => some s
    let evs := ls.events ++ [.detect]
    match cv.findChessboardCorners gray x y with
    | some corners =>
      let fs := if debug then
          { ls.fs with debugWrites :=
              ls.fs.debugWrites ++ ["corners_found" ++ toString idx ++ ".jpg"] }
        else ls.fs
      .ok { objpoints := ls.objpoints ++ [objp x y]
            imgpoints := ls.imgpoints ++ [corners]
            img_shape := shape
            fs := fs
            events := evs }
    | none =>
      .ok { ls with img_shape := shape, events := evs }

/-- The calibration loop of lines 79-98, iterating `calStep` with the running
index of `enumerate(images)`. -/
def calLoop (cv : CV) (x y : Nat) (debug : Bool) :
    Nat → List String → LoopState → Except (PyErr × LoopState) LoopState
  | _, [], ls => .ok ls
  | idx, fname :: rest, ls =>
    match calStep cv x y debug idx fname ls with
    | .error e => .error e
    | .ok ls' => calLoop cv x y debug (idx + 1) rest ls'

/-- The full outcome of one `calibrate_camera` call: the Python return value
(the function returns None on every path, hence always `none` of type
`Option (Mtx × DistC)`) or the escaping exception, together with the instance
state, the filesystem and the invocation log it leaves behind. -/
structure CalResult where
  outcome : Except PyErr (Option (Mtx × DistC))
  st : PipelineState
  fs : FS
  events : List Event

/-- The full-recomputation path of `calibrate_camera` (lines 68-110): assert
the image list non-empty, run the calibration loop, hand the accumulators and
the first image shape to `cv2.calibrateCamera` (its result is bound to the
instance fields only if it returns, so a raising solver leaves them
untouched), write undistorted debug images, and pickle the result.  The
`.getD []` on `img_shape` covers a case the source cannot reach with a
non-empty image list whose loop completed. -/
def recompute (cv : CV) (st : PipelineState) (fs : FS) (images : List String)
    (x y : Nat) (debug : Bool) : CalResult :=
  if images.length = 0 then ⟨.error .assertionError, st, fs, []⟩
  else
    match calLoop cv x y debug 0 images ⟨[], [], none, fs, []⟩ with
    | .error (e, ls) => ⟨.error e, st, ls.fs, ls.events⟩
    | .ok ls =>
      match cv.calibrateCamera ls.objpoints ls.imgpoints (ls.img_shape.getD []) with
      | .error e => ⟨.error e, st, ls.fs, ls.events ++ [.solve]⟩
      | .ok (m, d) =>
        let st' : PipelineState := ⟨some m, some d⟩
        match undistort_images cv st' debug images ls.fs with
        | .error (e, fs') => ⟨.error e, st', fs', ls.events ++ [.solve]⟩
        | .ok fs' => ⟨.ok none, st', saveCal fs' m d, ls.events ++ [.solve]⟩

/-- `calibrate_camera(self, images, x, y, debug, read_cal)` (lines 40-110).
When `read_cal` is set the cache is tried first: the pickled dict is loaded
and the two keys are read into the instance fields one after the other, so a
dict missing only dist_dist still mutates dist_mtx before the KeyError fires.
The `except (IOError, KeyError)` clause catches exactly those two kinds and
falls through to recomputation; every other exception escapes to the
caller. -/
def calibrate_camera (cv : CV) (st : PipelineState) (fs : FS) (images : List String)
    (x y : Nat) (debug read_cal : Bool) : CalResult :=
  if read_cal then
    match loadCal fs with
    | .ok cal_data =>
      match cal_data.dist_mtx with
      | none => recompute cv st fs images x y debug
      | some m =>
        let st1 := { st with dist_mtx := some m }
        match cal_data.dist_dist with
        | none => recompute cv st1 fs images x y debug
        | some d =>
          let st2 := { st1 with dist_dist := some d }
          match undistort_images cv st2 debug images fs with
          | .error (e, fs') => ⟨.error e, st2, fs', []⟩
          | .ok fs' => ⟨.ok none, st2, fs', []⟩
    | .error e =>
      if e = PyErr.ioError ∨ e = PyErr.keyError then recompute cv st fs images x y debug
      else ⟨.error e, st, fs, []⟩
  else recompute cv st fs images x y debug

/-- Per-file success of corner detection under a given oracle: the file
decodes and the detector finds corners in its grayscale conversion. -/
def detOk (cv : CV) (x y : Nat) (fname : String) : Bool :=
  match cv.imread fname with
  | none => false
  | some img => (cv.findChessboardCorners (cv.cvtColor_BGR2GRAY img) x y).isSome

/-- A Python dict from stage names to images, as the map `imgs` returned by a
subclass `pipeline(img, debug_all=True)` call.  Keys are assumed distinct as
in a dict; lookups use the first matching entry. -/
abbrev DebugMap := List (String × Img)

/-- Dict access `imgs[k]`, None when the key is missing (the call site turns
that into a KeyError). -/
def dictGet (m : DebugMap) (k : String) : Option Img :=
  (m.find? (fun p => p.1 = k)).map Prod.snd

/-- The first entry of a numpy shape, `shape[0]`. -/
def dims0 (i : Img) : Nat := i.dims.headD 0

/-- The second entry of a numpy shape, `shape[1]`. -/
def dims1 (i : Img) : Nat := (i.dims.get? 1).getD 0

/-- Lines 131-133 of `debug_pipeline`: `shape = imgs['final'].shape[0:2]`,
`scale = len(imgs) + 1`, `output = np.zeros((shape[0] * scale, shape[1], 3))`:
the zero-initialised output canvas. -/
def debugCanvas (imgs : DebugMap) (final : Img) : Img :=
  ⟨[dims0 final * (imgs.length + 1), dims1 final, 3], fun _ _ _ => 0⟩

/-- Lines 139-140: a grayscale entry (shape of length 2) is converted to RGB
before placement; colour entries pass through. -/
def gray2rgbFix (cv : CV) (i : Img) : Img :=
  if i.dims.length = 2 then cv.cvtColor_GRAY2RGB i else i

/-- The numpy slice assignment of lines 143-144: copy image `im` into band
`i` of the canvas.  The row range of the source is
`i*h : (i+1)*h - (h - im.shape[0])`, which equals `i*h : i*h + im.shape[0]`
over the integers; the column range is `0 : im.shape[1]`. -/
def placeImg (canvas : Img) (band h : Nat) (im : Img) : Img :=
  ⟨canvas.dims, fun r c k =>
    if band * h ≤ r ∧ r < band * h + dims0 im ∧ c < dims1 im then im.px (r - band * h) c k
    else canvas.px r c k⟩

/-- Sorted insertion used to model `sorted(imgs.keys())`. -/
def insertSorted (s : String) : List String → List String
  | [] => [s]
  | t :: rest => if s ≤ t then s :: t :: rest else t :: insertSorted s rest

/-- `sorted(...)`: lexicographically sorted list of keys. -/
def sortKeys : List String → List String
  | [] => []
  | s :: rest => insertSorted s (sortKeys rest)

/-- The placement loop of lines 136-145: iterate the sorted keys with offset
counter `i` starting at 1, converting grayscale entries and copying each into
its band.  A key always resolves because it came from the map itself; the
`none` arm is unreachable. -/
def debugLoop (cv : CV) (imgs : DebugMap) (h : Nat) :
    List String → Nat → Img → Img
  | [], _, out => out
  | k :: rest, i, out =>
    match dictGet imgs k with
    | none => debugLoop cv imgs h rest (i + 1) out
    | some im =>
      debugLoop cv imgs h rest (i + 1) (placeImg out i h (gray2rgbFix cv im))

/-- `debug_pipeline` (lines 125-146), taking the `DebugMap` the subclass
pipeline returned: access `imgs['final']` (KeyError when absent), allocate
the canvas, and lay the entries on top of each other in sorted key order. -/
def debug_pipeline (cv : CV) (imgs : DebugMap) : Except PyErr Img :=
  match dictGet imgs "final" with
  | none => .error .keyError
  | some final =>
    let canvas := debugCanvas imgs final
    .ok (debugLoop cv imgs (dims0 final) (sortKeys (imgs.map Prod.fst)) 1 canvas)

/-- The load failures the `except (IOError, KeyError)` clause of line 64
catches: file absent or unreadable (IOError), or a pickled dict missing one of
the expected keys (KeyError). -/
def recoverableMiss (fs : FS) : Prop :=
  fs.calFile = .absent ∨ fs.calFile = .unreadable ∨
    ∃ cd, fs.calFile = .holds (.data cd) ∧ (cd.dist_mtx = none ∨ cd.dist_dist = none)

/-! Concrete fixtures used to evaluate the embedding on closed inputs. -/

/-- A small colour test image. -/
def testImg : Img := ⟨[4, 6, 3], fun _ _ _ => 0⟩

/-- A second test image, distinguished from `testImg` by pixel content. -/
def testImgB : Img := ⟨[4, 6, 3], fun _ _ _ => 1⟩

/-- A concrete camera matrix. -/
def mtx1 : Mtx := [[1, 0, 0], [0, 1, 0], [0, 0, 1]]

/-- Concrete distortion coefficients. -/
def dist1 : DistC := [0, 0, 0, 0, 0]

/-- A concrete oracle bundle: every file except `bad.jpg` decodes, corner
detection always succeeds, the solver fails on an empty point list (as
`cv2.calibrateCamera` does) and returns `(mtx1, dist1)` otherwise, and
undistortion is the identity. -/
def cvTest : CV where
  imread := fun f => if f = "bad.jpg" then none else some testImg
  cvtColor_BGR2GRAY := fun i => ⟨i.dims.take 2, i.px⟩
  findChessboardCorners := fun _ _ _ => some [(1, 2)]
  calibrateCamera := fun o _ _ => if o.isEmpty then .error .cvError else .ok (mtx1, dist1)
  undistort := fun i _ _ => i
  drawChessboardCorners := fun i _ => i
  cvtColor_GRAY2RGB := fun i => ⟨i.dims ++ [3], i.px⟩

/-- Like `cvTest`, but corner detection never succeeds. -/
def cvNoDet : CV := { cvTest with findChessboardCorners := fun _ _ _ => none }

/-- Like `cvTest`, but every file decodes (`b.jpg` to `testImgB`) and corner
detection fails exactly on the grayscale conversion of `testImgB`. -/
def cvMix : CV :=
  { cvTest with
    imread := fun f => if f = "b.jpg" then some testImgB else some testImg
    findChessboardCorners := fun g _ _ => if g.px 0 0 0 = 1 then none else some [(1, 2)] }

/-- Filesystem with no calibration file. -/
def fsEmpty : FS := ⟨.absent, []⟩

/-- Filesystem whose calibration file holds a complete pickled dict. -/
def fsGood : FS := ⟨.holds (.data ⟨some mtx1, some dist1⟩), []⟩

/-- Filesystem whose calibration file holds an unpicklable blob. -/
def fsCorrupt : FS := ⟨.holds .corrupt, []⟩

/-- Filesystem whose calibration file holds a pickled dict with only the
dist_mtx key. -/
def fsOnlyMtx : FS := ⟨.holds (.data ⟨some mtx1, none⟩), []⟩

/-- The compositor scenario map of the spec: a 100x50x3 final image and a
100x50 grayscale edges image. -/
def finalImgC7 : Img := ⟨[100, 50, 3], fun _ _ _ => 0⟩

/-- The grayscale edges image of the compositor scenario. -/
def edgesImgC7 : Img := ⟨[100, 50], fun _ _ _ => 0⟩

/-- The compositor scenario debug map of two entries. -/
def imgsC7 : DebugMap := [("edges", edgesImgC7), ("final", finalImgC7)]

/-! Helper lemmas about the calibration loop, the debug writer and the
recomputation path, shared by the claim theorems below. -/

/-- When every file of a list decodes, the calibration loop completes without
raising and extends the accumulators by exactly one object/image point pair
per file on which corner detection succeeds, logging one detection attempt
per file. -/
theorem calLoop_ok_of_decodable (cv : CV) (x y : Nat) (debug : Bool) :
    ∀ (l : List String) (idx : Nat) (ls : LoopState),
      (∀ f ∈ l, (cv.imread f).isSome) →
      ∃ ls', calLoop cv x y debug idx l ls = .ok ls' ∧
        ls'.objpoints.length = ls.objpoints.length + l.countP (fun f => detOk cv x y f) ∧
        ls'.imgpoints.length = ls.imgpoints.length + l.countP (fun f => detOk cv x y f) ∧
        ls'.events = ls.events ++ List.replicate l.length .detect := by
  intro l
  induction l with
  | nil =>
    intro idx ls _
    exact ⟨ls, rfl, by simp, by simp, by simp⟩
  | cons f rest ih =>
    intro idx ls h
    have hf : (cv.imread f).isSome := h f (by simp)
    have hdec : ∀ g ∈ rest, (cv.imread g).isSome := fun g hg => h g (by simp [hg])
    rcases himg : cv.imread f with _ | img
    · rw [himg] at hf; simp at hf
    · rcases hdet : cv.findChessboardCorners (cv.cvtColor_BGR2GRAY img) x y with _ | corners
      · have hdf : detOk cv x y f = false := by simp [detOk, himg, hdet]
        obtain ⟨ls', hloop, h1, h2, h3⟩ := ih (idx + 1)
          { ls with
            img_shape := (match ls.img_shape with
              | none => some (cv.cvtColor_BGR2GRAY img).dims
              | some s => some s)
            events := ls.events ++ [.detect] } hdec
        refine ⟨ls', ?_, ?_, ?_, ?_⟩
        · simp only [calLoop, calStep, himg, hdet]
          exact hloop
        · simp only [List.countP_cons, hdf]
          simpa using h1
        · simp only [List.countP_cons, hdf]
          simpa using h2
        · simp only [List.length_cons, List.replicate_succ]
          simpa [List.append_assoc] using h3
      · have hdf : detOk cv x y f = true := by simp [detOk, himg, hdet]
        obtain ⟨ls', hloop, h1, h2, h3⟩ := ih (idx + 1)
          { objpoints := ls.objpoints ++ [objp x y]
            imgpoints := ls.imgpoints ++ [corners]
            img_shape := (match ls.img_shape with
              | none => some (cv.cvtColor_BGR2GRAY img).dims
              | some s => some s)
            fs := (if debug then
                { ls.fs with debugWrites :=
                    ls.fs.debugWrites ++ ["corners_found" ++ toString idx ++ ".jpg"] }
              else ls.fs)
            events := ls.events ++ [.detect] } hdec
        refine ⟨ls', ?_, ?_, ?_, ?_⟩
        · simp only [calLoop, calStep, himg, hdet]
          exact hloop
        · simp only [List.countP_cons, hdf]
          simp only [List.length_append, List.length_cons] at h1
          simp [h1]
          omega
        · simp only [List.countP_cons, hdf]
          simp only [List.length_append, List.length_cons] at h2
          simp [h2]
          omega
        · simp only [List.length_cons, List.replicate_succ]
          simpa [List.append_assoc] using h3

/-- The calibration loop aborts with cv2.error at the first file that does
not decode, however many files decoded before it. -/
theorem calLoop_error_of_undecodable (cv : CV) (x y : Nat) (debug : Bool) :
    ∀ (pre : List String) (idx : Nat) (ls : LoopState) (bad : String) (rest : List String),
      (∀ f ∈ pre, (cv.imread f).isSome) → cv.imread bad = none →
      ∃ ls', calLoop cv x y debug idx (pre ++ bad :: rest) ls = .error (.cvError, ls') := by
  intro pre
  induction pre with
  | nil =>
    intro idx ls bad rest _ hbad
    exact ⟨ls, by simp only [List.nil_append, calLoop, calStep, hbad]⟩
  | cons f pre' ih =>
    intro idx ls bad rest h hbad
    have hf : (cv.imread f).isSome := h f (by simp)
    have hdec : ∀ g ∈ pre', (cv.imread g).isSome := fun g hg => h g (by simp [hg])
    rcases himg : cv.imread f with _ | img
    · rw [himg] at hf; simp at hf
    · rcases hdet : cv.findChessboardCorners (cv.cvtColor_BGR2GRAY img) x y with _ | corners
      · obtain ⟨ls', hloop⟩ := ih (idx + 1) _ bad rest hdec hbad
        exact ⟨ls', by simp only [List.cons_append, calLoop, calStep, himg, hdet]; exact hloop⟩
      · obtain ⟨ls', hloop⟩ := ih (idx + 1) _ bad rest hdec hbad
        exact ⟨ls', by simp only [List.cons_append, calLoop, calStep, himg, hdet]; exact hloop⟩

/-- The debug-image writer touches only debug artifact names: it never writes
the calibration file, whether it completes or raises. -/
theorem undistortLoop_calFile (cv : CV) (st : PipelineState) :
    ∀ (l : List String) (idx : Nat) (fs fs' : FS),
      (undistortLoop cv st idx l fs = .ok fs' → fs'.calFile = fs.calFile) ∧
      (∀ e, undistortLoop cv st idx l fs = .error (e, fs') → fs'.calFile = fs.calFile) := by
  intro l
  induction l with
  | nil =>
    intro idx fs fs'
    constructor
    · intro h
      simp only [undistortLoop] at h
      cases h
      rfl
    · intro e h
      simp only [undistortLoop] at h
      cases h
  | cons f rest ih =>
    intro idx fs fs'
    constructor
    · intro h
      rcases hc : correct_distortion cv st (cv.imread f) with e | i
      · simp only [undistortLoop, hc] at h
        exact absurd h (by simp)
      · simp only [undistortLoop, hc] at h
        exact (ih (idx + 1)
          { fs with debugWrites := fs.debugWrites ++ ["undistort" ++ toString idx ++ ".jpg"] }
          fs').1 h
    · intro e h
      rcases hc : correct_distortion cv st (cv.imread f) with e' | i
      · simp only [undistortLoop, hc, Except.error.injEq, Prod.mk.injEq] at h
        rw [h.2]
      · simp only [undistortLoop, hc] at h
        exact (ih (idx + 1)
          { fs with debugWrites := fs.debugWrites ++ ["undistort" ++ toString idx ++ ".jpg"] }
          fs').2 e h

/-- `undistort_images` never writes the calibration file. -/
theorem undistort_images_calFile (cv : CV) (st : PipelineState) (debug : Bool)
    (images : List String) (fs fs' : FS) :
    (undistort_images cv st debug images fs = .ok fs' → fs'.calFile = fs.calFile) ∧
    (∀ e, undistort_images cv st debug images fs = .error (e, fs') → fs'.calFile = fs.calFile) := by
  unfold undistort_images
  rcases debug
  · constructor
    · intro h
      simp only [if_neg Bool.false_ne_true] at h
      cases h
      rfl
    · intro e h
      simp at h
  · simpa using undistortLoop_calFile cv st images 0 fs fs'

/-- The placement loop of `debug_pipeline` leaves the canvas shape fixed. -/
theorem debugLoop_dims (cv : CV) (imgs : DebugMap) (h : Nat) :
    ∀ (keys : List String) (i : Nat) (out : Img),
      (debugLoop cv imgs h keys i out).dims = out.dims := by
  intro keys
  induction keys with
  | nil => intro i out; rfl
  | cons k rest ih =>
    intro i out
    simp only [debugLoop]
    rcases dictGet imgs k with _ | im
    · exact ih (i + 1) out
    · exact ih (i + 1) _

/-- Whenever the full-recomputation path completes normally, the Python return
value is None, the calibration loop completed, the solver succeeded on the
accumulated points, and the solver output is both stored in the instance
fields and pickled to the calibration file. -/
theorem recompute_ok (cv : CV) (st : PipelineState) (fs : FS) (images : List String)
    (x y : Nat) (debug : Bool) (v : Option (Mtx × DistC))
    (h : (recompute cv st fs images x y debug).outcome = .ok v) :
    v = none ∧ ∃ ls m d,
      calLoop cv x y debug 0 images ⟨[], [], none, fs, []⟩ = .ok ls ∧
      cv.calibrateCamera ls.objpoints ls.imgpoints (ls.img_shape.getD []) = .ok (m, d) ∧
      (recompute cv st fs images x y debug).st = ⟨some m, some d⟩ ∧
      (recompute cv st fs images x y debug).fs.calFile = .holds (.data ⟨some m, some d⟩) := by
  by_cases hlen : images.length = 0
  · have hr : recompute cv st fs images x y debug = ⟨.error .assertionError, st, fs, []⟩ := by
      simp only [recompute, if_pos hlen]
    rw [hr] at h
    simp at h
  · rcases hcl : calLoop cv x y debug 0 images ⟨[], [], none, fs, []⟩ with ⟨e, ls⟩ | ls
    · have hr : recompute cv st fs images x y debug = ⟨.error e, st, ls.fs, ls.events⟩ := by
        simp only [recompute, if_neg hlen, hcl]
      rw [hr] at h
      simp at h
    · rcases hsv : cv.calibrateCamera ls.objpoints ls.imgpoints (ls.img_shape.getD [])
        with e | ⟨m, d⟩
      · have hr : recompute cv st fs images x y debug =
            ⟨.error e, st, ls.fs, ls.events ++ [.solve]⟩ := by
          simp only [recompute, if_neg hlen, hcl, hsv]
        rw [hr] at h
        simp at h
      · rcases hui : undistort_images cv ⟨some m, some d⟩ debug images ls.fs with ⟨e, fs2⟩ | fs2
        · have hr : recompute cv st fs images x y debug =
              ⟨.error e, ⟨some m, some d⟩, fs2, ls.events ++ [.solve]⟩ := by
            simp only [recompute, if_neg hlen, hcl, hsv, hui]
          rw [hr] at h
          simp at h
        · have hr : recompute cv st fs images x y debug =
              ⟨.ok none, ⟨some m, some d⟩, saveCal fs2 m d, ls.events ++ [.solve]⟩ := by
            simp only [recompute, if_neg hlen, hcl, hsv, hui]
          rw [hr] at h ⊢
          simp only [Except.ok.injEq] at h
          exact ⟨h.symm, ls, m, d, rfl, hsv, rfl, rfl⟩

/-! Claim theorems. -/

/-- C1 counterexample: on a full recomputation whose solve succeeds, the
embedded `calibrate_camera` evaluates to `Except.ok none` — the Python
function returns None — and not to `.ok (some (mtx1, dist1))`, even though the
computed parameters are stored as the active instance fields.  This falsifies
the claim that the computed CalibrationParameters are returned to the
caller. -/
theorem calibrate_camera_return_value_cex :
    (calibrate_camera cvTest init_state fsEmpty ["a.jpg"] 9 6 false false).outcome = .ok none ∧
    (calibrate_camera cvTest init_state fsEmpty ["a.jpg"] 9 6 false false).st =
      ⟨some mtx1, some dist1⟩ ∧
    ¬ (calibrate_camera cvTest init_state fsEmpty ["a.jpg"] 9 6 false false).outcome =
      .ok (some (mtx1, dist1)) :=
  ⟨rfl, rfl, fun h => by
    have h2 : (Except.ok none : Except PyErr (Option (Mtx × DistC))) =
        .ok (some (mtx1, dist1)) := h
    simp at h2⟩

/-- C1 (amended): on the full-recomputation path, whenever `calibrate_camera`
completes normally, the value it returns is None, while the solver output is
stored as the active parameters (dist_mtx, dist_dist) and pickled to the
calibration file. -/
theorem calibrate_camera_stores_and_returns_none (cv : CV) (st : PipelineState) (fs : FS)
    (images : List String) (x y : Nat) (debug : Bool) (v : Option (Mtx × DistC))
    (h : (calibrate_camera cv st fs images x y debug false).outcome = .ok v) :
    v = none ∧ ∃ ls m d,
      calLoop cv x y debug 0 images ⟨[], [], none, fs, []⟩ = .ok ls ∧
      cv.calibrateCamera ls.objpoints ls.imgpoints (ls.img_shape.getD []) = .ok (m, d) ∧
      (calibrate_camera cv st fs images x y debug false).st = ⟨some m, some d⟩ ∧
      (calibrate_camera cv st fs images x y debug false).fs.calFile =
        .holds (.data ⟨some m, some d⟩) :=
  recompute_ok cv st fs images x y debug v h

/-- C1 witness: the amended theorem applied to a concrete successful run. -/
theorem calibrate_camera_stores_and_returns_none_witness :
    (none : Option (Mtx × DistC)) = none ∧ ∃ ls m d,
      calLoop cvTest 9 6 false 0 ["a.jpg"] ⟨[], [], none, fsEmpty, []⟩ = .ok ls ∧
      cvTest.calibrateCamera ls.objpoints ls.imgpoints (ls.img_shape.getD []) = .ok (m, d) ∧
      (calibrate_camera cvTest init_state fsEmpty ["a.jpg"] 9 6 false false).st =
        ⟨some m, some d⟩ ∧
      (calibrate_camera cvTest init_state fsEmpty ["a.jpg"] 9 6 false false).fs.calFile =
        .holds (.data ⟨some m, some d⟩) :=
  calibrate_camera_stores_and_returns_none cvTest init_state fsEmpty ["a.jpg"] 9 6 false none rfl

/-- C2: with both calibration fields set and a non-null input image, and the
external `cv2.undistort` preserving the array shape (its library contract,
enforced again by the assert on line 118), `correct_distortion` returns an
image of identical dimensions and channel count; moreover any normally
returned image has the shape of the input. -/
theorem correct_distortion_preserves_shape (cv : CV) (st : PipelineState) (i : Img)
    (m : Mtx) (d : DistC) (hm : st.dist_mtx = some m) (hd : st.dist_dist = some d)
    (hu : (cv.undistort i m d).dims = i.dims) :
    correct_distortion cv st (some i) = .ok (cv.undistort i m d) ∧
    ∀ out, correct_distortion cv st (some i) = .ok out → out.dims = i.dims := by
  have h1 : correct_distortion cv st (some i) = .ok (cv.undistort i m d) := by
    simp only [correct_distortion, hm, hd]
    rw [if_pos hu.symm]
  refine ⟨h1, fun out hout => ?_⟩
  rw [h1] at hout
  cases hout
  exact hu

/-- C2 witness: the theorem applied at a concrete image and parameters. -/
theorem correct_distortion_preserves_shape_witness :
    correct_distortion cvTest ⟨some mtx1, some dist1⟩ (some testImg) =
      .ok (cvTest.undistort testImg mtx1 dist1) ∧
    ∀ out, correct_distortion cvTest ⟨some mtx1, some dist1⟩ (some testImg) = .ok out →
      out.dims = testImg.dims :=
  correct_distortion_preserves_shape cvTest ⟨some mtx1, some dist1⟩ testImg mtx1 dist1
    rfl rfl rfl

/-- C3 counterexample: a calibration file holding an unpicklable blob makes
the cache read raise pickle.UnpicklingError, which the
`except (IOError, KeyError)` clause does not catch: the error escapes to the
caller and no recomputation (no detection attempt) happens, refuting the
claim that every listed load failure falls through to recomputation. -/
theorem corrupt_blob_propagates_cex :
    (calibrate_camera cvTest init_state fsCorrupt ["a.jpg"] 9 6 false true).outcome =
      .error .unpicklingError ∧
    (calibrate_camera cvTest init_state fsCorrupt ["a.jpg"] 9 6 false true).events = [] ∧
    (calibrate_camera cvTest init_state fsCorrupt ["a.jpg"] 9 6 false true).st = init_state :=
  ⟨rfl, rfl, rfl⟩

/-- C3 (amended): with read_cal set, a load failure of the kinds the except
clause actually catches — file absent or unreadable (IOError) or a pickled
dict missing an expected key (KeyError) — is not propagated: the call falls
through to the full recomputation path (with dist_dist untouched by the
failed read). -/
theorem load_failure_falls_through (cv : CV) (st : PipelineState) (fs : FS)
    (images : List String) (x y : Nat) (debug : Bool) (h : recoverableMiss fs) :
    ∃ st', calibrate_camera cv st fs images x y debug true =
        recompute cv st' fs images x y debug ∧ st'.dist_dist = st.dist_dist := by
  rcases h with h | h | ⟨cd, hcd, hmiss⟩
  · exact ⟨st, by simp [calibrate_camera, loadCal, h], rfl⟩
  · exact ⟨st, by simp [calibrate_camera, loadCal, h], rfl⟩
  · obtain ⟨cm, cdd⟩ := cd
    rcases hmiss with hm | hd
    · obtain rfl : cm = none := hm
      exact ⟨st, by simp [calibrate_camera, loadCal, hcd], rfl⟩
    · obtain rfl : cdd = none := hd
      rcases cm with _ | m
      · exact ⟨st, by simp [calibrate_camera, loadCal, hcd], rfl⟩
      · exact ⟨{ st with dist_mtx := some m }, by simp [calibrate_camera, loadCal, hcd], rfl⟩

/-- C3 witness: the amended theorem applied with an absent calibration file. -/
theorem load_failure_falls_through_witness :
    ∃ st', calibrate_camera cvTest init_state fsEmpty ["a.jpg"] 9 6 false true =
        recompute cvTest st' fsEmpty ["a.jpg"] 9 6 false ∧
      st'.dist_dist = init_state.dist_dist :=
  load_failure_falls_through cvTest init_state fsEmpty ["a.jpg"] 9 6 false (Or.inl rfl)

/-- C4 counterexample: a cached dict holding only the dist_mtx key, combined
with an empty image list, leaves the instance with dist_mtx set and dist_dist
None while `calibrate_camera` raises AssertionError — a reachable state where
exactly one of the two fields is populated, refuting the claimed invariant
for operations that complete by raising. -/
theorem calibration_fields_partial_cex :
    (calibrate_camera cvTest init_state fsOnlyMtx [] 9 6 false true).st.dist_mtx = some mtx1 ∧
    (calibrate_camera cvTest init_state fsOnlyMtx [] 9 6 false true).st.dist_dist = none ∧
    (calibrate_camera cvTest init_state fsOnlyMtx [] 9 6 false true).outcome =
      .error .assertionError :=
  ⟨rfl, rfl, rfl⟩

/-- C4 (amended): the both-or-neither invariant holds after construction and
after every `calibrate_camera` call that completes normally; only a raising
call (a cache blob with dist_mtx but no dist_dist followed by a failing
recomputation) can leave exactly one field populated. -/
theorem calibration_fields_both_or_neither_on_success :
    (init_state.dist_mtx = none ∧ init_state.dist_dist = none) ∧
    ∀ (cv : CV) (st : PipelineState) (fs : FS) (images : List String) (x y : Nat)
      (debug read_cal : Bool) (v : Option (Mtx × DistC)),
      (calibrate_camera cv st fs images x y debug read_cal).outcome = .ok v →
      (calibrate_camera cv st fs images x y debug read_cal).st.dist_mtx.isSome ∧
      (calibrate_camera cv st fs images x y debug read_cal).st.dist_dist.isSome := by
  refine ⟨⟨rfl, rfl⟩, ?_⟩
  intro cv st fs images x y debug read_cal v h
  rcases read_cal with _ | _
  · obtain ⟨-, ls, m, d, -, -, hst, -⟩ := recompute_ok cv st fs images x y debug v h
    have hst' : (calibrate_camera cv st fs images x y debug false).st = ⟨some m, some d⟩ := hst
    rw [hst']
    exact ⟨rfl, rfl⟩
  · rcases hlc : loadCal fs with e | cal_data
    · by_cases he : e = PyErr.ioError ∨ e = PyErr.keyError
      · have hr : calibrate_camera cv st fs images x y debug true =
            recompute cv st fs images x y debug := by
          simp [calibrate_camera, hlc, he]
        rw [hr] at h
        obtain ⟨-, ls, m, d, -, -, hst, -⟩ := recompute_ok cv st fs images x y debug v h
        rw [hr, hst]
        exact ⟨rfl, rfl⟩
      · have hr : calibrate_camera cv st fs images x y debug true =
            ⟨.error e, st, fs, []⟩ := by
          simp [calibrate_camera, hlc, he]
        rw [hr] at h
        simp at h
    · obtain ⟨cm, cdd⟩ := cal_data
      rcases cm with _ | m
      · have hr : calibrate_camera cv st fs images x y debug true =
            recompute cv st fs images x y debug := by
          simp [calibrate_camera, hlc]
        rw [hr] at h
        obtain ⟨-, ls, m, d, -, -, hst, -⟩ := recompute_ok cv st fs images x y debug v h
        rw [hr, hst]
        exact ⟨rfl, rfl⟩
      · rcases cdd with _ | d
        · have hr : calibrate_camera cv st fs images x y debug true =
              recompute cv { st with dist_mtx := some m } fs images x y debug := by
            simp [calibrate_camera, hlc]
          rw [hr] at h
          obtain ⟨-, ls, m', d', -, -, hst, -⟩ :=
            recompute_ok cv { st with dist_mtx := some m } fs images x y debug v h
          rw [hr, hst]
          exact ⟨rfl, rfl⟩
        · rcases hui : undistort_images cv { st with dist_mtx := some m, dist_dist := some d }
              debug images fs with ⟨e, fs'⟩ | fs'
          · have hr : calibrate_camera cv st fs images x y debug true =
                ⟨.error e, { st with dist_mtx := some m, dist_dist := some d }, fs', []⟩ := by
              simp [calibrate_camera, hlc, hui]
            rw [hr] at h
            simp at h
          · have hr : calibrate_camera cv st fs images x y debug true =
                ⟨.ok none, { st with dist_mtx := some m, dist_dist := some d }, fs', []⟩ := by
              simp [calibrate_camera, hlc, hui]
            rw [hr]
            exact ⟨rfl, rfl⟩

/-- C4 witness: the amended theorem applied to a concrete normally completing
cache-hit run. -/
theorem calibration_fields_both_or_neither_on_success_witness :
    (calibrate_camera cvTest init_state fsGood ["a.jpg"] 9 6 false true).st.dist_mtx.isSome ∧
    (calibrate_camera cvTest init_state fsGood ["a.jpg"] 9 6 false true).st.dist_dist.isSome :=
  calibration_fields_both_or_neither_on_success.2 cvTest init_state fsGood ["a.jpg"] 9 6
    false true none rfl

/-- C5: saving parameters to the calibration store (pickling the dict with
keys dist_mtx and dist_dist to the configured file) and then loading from the
store yields exactly the parameters that were saved. -/
theorem save_load_roundtrip (fs : FS) (m : Mtx) (d : DistC) :
    loadParams (saveCal fs m d) = .ok (m, d) := rfl

/-- C6: over a set of N decodable images of which corner detection fails on
exactly K (K < N), the calibration loop completes without raising and
accumulates one object/image point pair per successful detection, i.e. N - K
pairs; the subsequent solve over those pairs then completes the recomputation
path normally (the solver being assumed to succeed on a non-empty point list,
its external contract). -/
theorem skip_on_failure (cv : CV) (st : PipelineState) (fs : FS) (images : List String)
    (x y : Nat) (m : Mtx) (d : DistC)
    (hdec : ∀ f ∈ images, (cv.imread f).isSome)
    (hK : images.countP (fun f => !(detOk cv x y f)) < images.length)
    (hsolve : ∀ o i s, o ≠ [] → cv.calibrateCamera o i s = .ok (m, d)) :
    ∃ ls, calLoop cv x y false 0 images ⟨[], [], none, fs, []⟩ = .ok ls ∧
      ls.objpoints.length = images.length - images.countP (fun f => !(detOk cv x y f)) ∧
      ls.imgpoints.length = images.length - images.countP (fun f => !(detOk cv x y f)) ∧
      (recompute cv st fs images x y false).outcome = .ok none ∧
      (recompute cv st fs images x y false).st = ⟨some m, some d⟩ := by
  obtain ⟨ls, hloop, h1, h2, h3⟩ :=
    calLoop_ok_of_decodable cv x y false images 0 ⟨[], [], none, fs, []⟩ hdec
  have hsum : ∀ l : List String,
      l.countP (fun f => detOk cv x y f) + l.countP (fun f => !(detOk cv x y f)) = l.length := by
    intro l
    induction l with
    | nil => rfl
    | cons a t ih =>
      simp only [List.countP_cons]
      rcases hda : detOk cv x y a <;> simp [hda] <;> omega
  have h1' : ls.objpoints.length = images.countP (fun f => detOk cv x y f) := by
    simpa using h1
  have h2' : ls.imgpoints.length = images.countP (fun f => detOk cv x y f) := by
    simpa using h2
  have hs := hsum images
  have hobj : ls.objpoints.length =
      images.length - images.countP (fun f => !(detOk cv x y f)) := by omega
  have himg2 : ls.imgpoints.length =
      images.length - images.countP (fun f => !(detOk cv x y f)) := by omega
  have hne : ls.objpoints ≠ [] := by
    intro hnil
    rw [hnil] at h1'
    simp at h1'
    omega
  have hsv : cv.calibrateCamera ls.objpoints ls.imgpoints (ls.img_shape.getD []) =
      .ok (m, d) := hsolve _ _ _ hne
  have hui : undistort_images cv ⟨some m, some d⟩ false images ls.fs = .ok ls.fs := rfl
  have hlen : ¬(images.length = 0) := by omega
  have hr : recompute cv st fs images x y false =
      ⟨.ok none, ⟨some m, some d⟩, saveCal ls.fs m d, ls.events ++ [.solve]⟩ := by
    simp only [recompute, if_neg hlen, hloop, hsv, hui]
  exact ⟨ls, hloop, hobj, himg2, by rw [hr], by rw [hr]⟩

/-- C6 witness: two decodable images with exactly one detection failure. -/
theorem skip_on_failure_witness :
    ∃ ls, calLoop cvMix 9 6 false 0 ["a.jpg", "b.jpg"] ⟨[], [], none, fsEmpty, []⟩ = .ok ls ∧
      ls.objpoints.length =
        (["a.jpg", "b.jpg"] : List String).length -
          (["a.jpg", "b.jpg"] : List String).countP (fun f => !(detOk cvMix 9 6 f)) ∧
      ls.imgpoints.length =
        (["a.jpg", "b.jpg"] : List String).length -
          (["a.jpg", "b.jpg"] : List String).countP (fun f => !(detOk cvMix 9 6 f)) ∧
      (recompute cvMix init_state fsEmpty ["a.jpg", "b.jpg"] 9 6 false).outcome = .ok none ∧
      (recompute cvMix init_state fsEmpty ["a.jpg", "b.jpg"] 9 6 false).st =
        ⟨some mtx1, some dist1⟩ :=
  skip_on_failure cvMix init_state fsEmpty ["a.jpg", "b.jpg"] 9 6 mtx1 dist1
    (by decide) (by decide)
    (fun o i s h => by
      cases o with
      | nil => exact absurd rfl h
      | cons a t => rfl)

/-- C7: for a debug map containing a final key, the canvas allocated by
`debug_pipeline` has height tileHeight x (count + 1), width tileWidth and 3
channels with every pixel zero, where tileHeight and tileWidth are the first
two dimensions of the final image; the composed output keeps that shape. -/
theorem debug_canvas_spec (cv : CV) (imgs : DebugMap) (final : Img)
    (h : dictGet imgs "final" = some final) :
    (debugCanvas imgs final).dims = [dims0 final * (imgs.length + 1), dims1 final, 3] ∧
    (∀ r c k, (debugCanvas imgs final).px r c k = 0) ∧
    ∃ out, debug_pipeline cv imgs = .ok out ∧
      out.dims = [dims0 final * (imgs.length + 1), dims1 final, 3] := by
  refine ⟨rfl, fun r c k => rfl, ?_⟩
  refine ⟨debugLoop cv imgs (dims0 final) (sortKeys (imgs.map Prod.fst)) 1
    (debugCanvas imgs final), ?_, ?_⟩
  · simp only [debug_pipeline, h]
  · rw [debugLoop_dims]
    rfl

/-- C7 witness: the compositor scenario of the spec — two entries whose final
image is 100x50x3 — yields a zero-initialised 300x50x3 canvas. -/
theorem debug_canvas_spec_witness :
    (debugCanvas imgsC7 finalImgC7).dims = [300, 50, 3] ∧
    (∀ r c k, (debugCanvas imgsC7 finalImgC7).px r c k = 0) ∧
    ∃ out, debug_pipeline cvTest imgsC7 = .ok out ∧ out.dims = [300, 50, 3] :=
  debug_canvas_spec cvTest imgsC7 finalImgC7 rfl

/-- C8: on a cache hit (read_cal set and the store loading a dict with both
keys), `calibrate_camera` never invokes corner detection or the solver (its
invocation log is empty) and never writes the calibration file (the persisted
store contents are unchanged); with debug off it returns normally. -/
theorem cache_hit_frame (cv : CV) (st : PipelineState) (fs : FS) (images : List String)
    (x y : Nat) (debug : Bool) (m : Mtx) (d : DistC)
    (h : fs.calFile = .holds (.data ⟨some m, some d⟩)) :
    (calibrate_camera cv st fs images x y debug true).events = [] ∧
    (calibrate_camera cv st fs images x y debug true).fs.calFile = fs.calFile ∧
    (debug = false → (calibrate_camera cv st fs images x y debug true).outcome = .ok none) := by
  have hlc : loadCal fs = .ok ⟨some m, some d⟩ := by simp [loadCal, h]
  rcases hui : undistort_images cv { st with dist_mtx := some m, dist_dist := some d }
      debug images fs with ⟨e, fs'⟩ | fs'
  · have hr : calibrate_camera cv st fs images x y debug true =
        ⟨.error e, { st with dist_mtx := some m, dist_dist := some d }, fs', []⟩ := by
      simp [calibrate_camera, hlc, hui]
    rw [hr]
    refine ⟨rfl, ?_, ?_⟩
    · exact (undistort_images_calFile cv _ debug images fs fs').2 e hui
    · intro hdf
      rw [hdf] at hui
      simp [undistort_images] at hui
  · have hr : calibrate_camera cv st fs images x y debug true =
        ⟨.ok none, { st with dist_mtx := some m, dist_dist := some d }, fs', []⟩ := by
      simp [calibrate_camera, hlc, hui]
    rw [hr]
    exact ⟨rfl, (undistort_images_calFile cv _ debug images fs fs').1 hui, fun _ => rfl⟩

/-- C8 witness: a concrete cache hit with a pre-populated store. -/
theorem cache_hit_frame_witness :
    (calibrate_camera cvTest init_state fsGood ["a.jpg"] 9 6 false true).events = [] ∧
    (calibrate_camera cvTest init_state fsGood ["a.jpg"] 9 6 false true).fs.calFile =
      fsGood.calFile ∧
    (false = false →
      (calibrate_camera cvTest init_state fsGood ["a.jpg"] 9 6 false true).outcome = .ok none) :=
  cache_hit_frame cvTest init_state fsGood ["a.jpg"] 9 6 false mtx1 dist1 rfl

/-- C9 counterexample: an input file that does not decode (cv2.imread returns
None) makes the grayscale conversion raise cv2.error and abort the whole
calibration run — it is not skipped — refuting the claim that an unreadable
file is logged and skipped and the run continues. -/
theorem undecodable_file_aborts_cex :
    (calibrate_camera cvTest init_state fsEmpty ["a.jpg", "bad.jpg"] 9 6 false false).outcome =
      .error .cvError ∧
    (calibrate_camera cvTest init_state fsEmpty ["a.jpg", "bad.jpg"] 9 6 false false).st =
      init_state :=
  ⟨rfl, rfl⟩

/-- C9 (amended): during the recomputation loop, the first input file that
cannot be decoded aborts the calibration run with cv2.error (leaving the
instance fields unchanged); only corner-detection failures are skipped. -/
theorem undecodable_file_aborts (cv : CV) (st : PipelineState) (fs : FS)
    (pre rest : List String) (bad : String) (x y : Nat) (debug : Bool)
    (hpre : ∀ f ∈ pre, (cv.imread f).isSome) (hbad : cv.imread bad = none) :
    (calibrate_camera cv st fs (pre ++ bad :: rest) x y debug false).outcome =
      .error .cvError ∧
    (calibrate_camera cv st fs (pre ++ bad :: rest) x y debug false).st = st := by
  obtain ⟨ls', hloop⟩ :=
    calLoop_error_of_undecodable cv x y debug pre 0 ⟨[], [], none, fs, []⟩ bad rest hpre hbad
  have hlen : ¬((pre ++ bad :: rest).length = 0) := by simp
  have hr : calibrate_camera cv st fs (pre ++ bad :: rest) x y debug false =
      ⟨.error .cvError, st, ls'.fs, ls'.events⟩ := by
    show recompute cv st fs (pre ++ bad :: rest) x y debug = _
    simp only [recompute, if_neg hlen, hloop]
  rw [hr]
  exact ⟨rfl, rfl⟩

/-- C9 witness: the amended theorem at a concrete list with one decodable
file followed by an undecodable one. -/
theorem undecodable_file_aborts_witness :
    (calibrate_camera cvTest init_state fsEmpty (["a.jpg"] ++ "bad.jpg" :: []) 9 6 false
      false).outcome = .error .cvError ∧
    (calibrate_camera cvTest init_state fsEmpty (["a.jpg"] ++ "bad.jpg" :: []) 9 6 false
      false).st = init_state :=
  undecodable_file_aborts cvTest init_state fsEmpty ["a.jpg"] [] "bad.jpg" 9 6 false
    (by decide) rfl

/-- C10: when corner detection fails on every image of a non-empty decodable
set, the loop completes with empty accumulators, the solver is invoked on
those empty lists and fails (the external behaviour of cv2.calibrateCamera on
zero views), so `calibrate_camera` raises without setting any calibration
parameters: successful recomputation requires at least one detection. -/
theorem all_detections_fail_no_params (cv : CV) (st : PipelineState) (fs : FS)
    (images : List String) (x y : Nat) (debug : Bool)
    (hne : images ≠ [])
    (hdec : ∀ f ∈ images, (cv.imread f).isSome)
    (hfail : ∀ f ∈ images, detOk cv x y f = false)
    (hsolve : ∀ s, ∃ e, cv.calibrateCamera [] [] s = .error e) :
    ∃ ls, calLoop cv x y debug 0 images ⟨[], [], none, fs, []⟩ = .ok ls ∧
      ls.objpoints = [] ∧ ls.imgpoints = [] ∧
      ∃ e, (calibrate_camera cv st fs images x y debug false).outcome = .error e ∧
        (calibrate_camera cv st fs images x y debug false).st = st ∧
        Event.solve ∈ (calibrate_camera cv st fs images x y debug false).events := by
  obtain ⟨ls, hloop, h1, h2, h3⟩ :=
    calLoop_ok_of_decodable cv x y debug images 0 ⟨[], [], none, fs, []⟩ hdec
  have hcnt : images.countP (fun f => detOk cv x y f) = 0 := by
    rw [List.countP_eq_zero]
    intro f hf
    simp [hfail f hf]
  have hobj : ls.objpoints = [] := by
    have : ls.objpoints.length = 0 := by simp [h1, hcnt]
    exact List.length_eq_zero.mp this
  have himgp : ls.imgpoints = [] := by
    have : ls.imgpoints.length = 0 := by simp [h2, hcnt]
    exact List.length_eq_zero.mp this
  obtain ⟨e, hsv0⟩ := hsolve (ls.img_shape.getD [])
  have hsv : cv.calibrateCamera ls.objpoints ls.imgpoints (ls.img_shape.getD []) =
      .error e := by
    rw [hobj, himgp]
    exact hsv0
  have hlen : ¬(images.length = 0) := fun hh => hne (List.length_eq_zero.mp hh)
  have hr : calibrate_camera cv st fs images x y debug false =
      ⟨.error e, st, ls.fs, ls.events ++ [.solve]⟩ := by
    show recompute cv st fs images x y debug = _
    simp only [recompute, if_neg hlen, hloop, hsv]
  exact ⟨ls, hloop, hobj, himgp, e, by rw [hr], by rw [hr], by rw [hr]; simp⟩

/-- C10 witness: a single decodable image on which detection fails, with an
oracle whose solver errors on empty input. -/
theorem all_detections_fail_no_params_witness :
    ∃ ls, calLoop cvNoDet 9 6 false 0 ["a.jpg"] ⟨[], [], none, fsEmpty, []⟩ = .ok ls ∧
      ls.objpoints = [] ∧ ls.imgpoints = [] ∧
      ∃ e, (calibrate_camera cvNoDet init_state fsEmpty ["a.jpg"] 9 6 false false).outcome =
          .error e ∧
        (calibrate_camera cvNoDet init_state fsEmpty ["a.jpg"] 9 6 false false).st =
          init_state ∧
        Event.solve ∈ (calibrate_camera cvNoDet init_state fsEmpty ["a.jpg"] 9 6 false
          false).events :=
  all_detections_fail_no_params cvNoDet init_state fsEmpty ["a.jpg"] 9 6 false
    (by decide) (by decide) (by decide) (fun s => ⟨.cvError, rfl⟩)
